import Mathlib

/-!
# GatorSwamp Content Actor — verification development

Shallow embedding of the PostActor (content actor) of the GatorSwamp
repository and proofs about its behaviour.

Modelling choices:
* UUIDs are `Nat`; timestamps are `Nat`; Go `int` counters are `Int`.
* Go maps are association lists (`List (Nat × α)`) with `alookup`/`aset`
  reproducing Go map read/replace semantics (a read of a missing key in a
  nil inner map yields the zero value, i.e. `Option.none`).
* The actor's external collaborators (MongoDB, the engine PID) are
  modelled as oracle inputs: the outcome of each store call is an input
  to the handler, and the handler's outputs record the store writes it
  issued and the actor messages it sent.  A handler returns an `Effects`
  record: the next in-memory state, the reply it responds with (if any),
  the list of durable-store writes issued, and the list of fire-and-forget
  `UpdateKarmaMsg` messages sent to the engine.
* Logging and metrics calls have no semantic effect and are omitted.
-/

namespace GatorSwamp

/-- Association list lookup: Go `v, ok := m[k]`. -/
def alookup {α : Type} : List (Nat × α) → Nat → Option α
  | [], _ => Option.none
  | kv :: rest, key => if kv.1 = key then some kv.2 else alookup rest key

/-- Association list update: Go `m[k] = v` (replace existing key, else add). -/
def aset {α : Type} : List (Nat × α) → Nat → α → List (Nat × α)
  | [], key, v => [(key, v)]
  | kv :: rest, key, v => if kv.1 = key then (key, v) :: rest else kv :: aset rest key v

/-- models.Post (the fields used by the content actor). -/
structure Post where
  ID : Nat
  Title : String
  Content : String
  AuthorID : Nat
  AuthorUsername : String
  SubredditID : Nat
  SubredditName : String
  CreatedAt : Nat
  Upvotes : Int
  Downvotes : Int
  Karma : Int
deriving DecidableEq

/-- voteStatus: internal struct for tracking votes. -/
structure voteStatus where
  IsUpvote : Bool
  VotedAt : Nat
deriving DecidableEq

/-- utils error codes used by the post actor and its HTTP callers. -/
inductive ErrorCode where
  | ErrNotFound
  | ErrInvalidInput
  | ErrUnauthorized
  | ErrDuplicate
  | ErrDatabase
deriving DecidableEq

/-- utils.AppError (the wrapped underlying Go `error` cause is dropped). -/
structure AppError where
  Code : ErrorCode
  Message : String
deriving DecidableEq

/-- utils.NewAppError. -/
def NewAppError (code : ErrorCode) (message : String) : AppError :=
  ⟨code, message⟩

/-- A value passed to context.Respond by the post actor. -/
inductive Reply where
  | post (p : Post)
  | posts (ps : List Post)
  | appError (e : AppError)
deriving DecidableEq

/-- A write issued against the durable store (MongoDB) by the post actor. -/
inductive StoreWrite where
  | insertPost (p : Post)
  | updatePostVotes (postID : Nat) (upvoteDelta downvoteDelta : Int)
deriving DecidableEq

/-- UpdateKarmaMsg sent (fire-and-forget) to the engine PID. -/
structure UpdateKarmaMsg where
  UserID : Nat
  Delta : Int
deriving DecidableEq

/-- The PostActor's in-memory state: post cache, subreddit index, vote ledger. -/
structure PostActorState where
  postsByID : List (Nat × Post)
  subredditPosts : List (Nat × List Nat)
  postVotes : List (Nat × List (Nat × voteStatus))
deriving DecidableEq

/-- The observable effects of handling one message. -/
structure Effects where
  state : PostActorState
  reply : Option Reply
  storeWrites : List StoreWrite
  sent : List UpdateKarmaMsg
deriving DecidableEq

/-- Message types for post operations. -/
structure CreatePostMsg where
  Title : String
  Content : String
  AuthorID : Nat
  SubredditID : Nat
deriving DecidableEq

structure GetPostMsg where
  PostID : Nat
deriving DecidableEq

structure GetSubredditPostsMsg where
  SubredditID : Nat
deriving DecidableEq

structure VotePostMsg where
  PostID : Nat
  UserID : Nat
  IsUpvote : Bool
deriving DecidableEq

structure GetUserFeedMsg where
  UserID : Nat
  Limit : Int
deriving DecidableEq

structure DeletePostMsg where
  PostID : Nat
  UserID : Nat
deriving DecidableEq

structure GetRecentPostsMsg where
  Limit : Int
deriving DecidableEq

/-- Result of mongodb.GetUser: the author's record (only Username is read). -/
structure User where
  Username : String
deriving DecidableEq

/-- Result of mongodb.GetSubredditByID (only Name is read). -/
structure Subreddit where
  Name : String
deriving DecidableEq

/-- The `if _, exists := a.postVotes[msg.PostID]; !exists` guard in handleVote:
ensure the inner vote map exists for the post. -/
def votesEnsure (votes : List (Nat × List (Nat × voteStatus))) (postID : Nat) :
    List (Nat × List (Nat × voteStatus)) :=
  match alookup votes postID with
  | Option.none => aset votes postID []
  | some _ => votes

/-- The tail of handleVote after the deltas are decided: mutate the cached
post's counters, recompute karma, record the vote in the ledger, issue the
incremental store write, and (only if the store write succeeded) send the
karma notification and respond with the post; on store failure respond with
a database error (the in-memory mutation is not rolled back — this mirrors
the source, where the counters and ledger are mutated before the store call). -/
def voteFinish (storeOk : Bool) (now : Nat) (a : PostActorState)
    (votes1 : List (Nat × List (Nat × voteStatus)))
    (ledger : List (Nat × voteStatus)) (post : Post) (msg : VotePostMsg)
    (upvoteDelta downvoteDelta : Int) : Effects :=
  let post1 : Post :=
    { post with Upvotes := post.Upvotes + upvoteDelta,
                Downvotes := post.Downvotes + downvoteDelta }
  let post2 : Post := { post1 with Karma := post1.Upvotes - post1.Downvotes }
  { state :=
      { postsByID := aset a.postsByID msg.PostID post2,
        subredditPosts := a.subredditPosts,
        postVotes := aset votes1 msg.PostID
          (aset ledger msg.UserID ⟨msg.IsUpvote, now⟩) },
    reply :=
      if storeOk then some (Reply.post post2)
      else some (Reply.appError (NewAppError ErrorCode.ErrDatabase "Failed to persist vote")),
    storeWrites := [StoreWrite.updatePostVotes post.ID upvoteDelta downvoteDelta],
    sent :=
      if storeOk then [⟨post.AuthorID, if msg.IsUpvote then 1 else -1⟩]
      else [] }

/-- PostActor.handleVote.  `storeOk` is the outcome of the
mongodb.UpdatePostVotes call; `now` is the current time. -/
def handleVote (storeOk : Bool) (now : Nat) (a : PostActorState) (msg : VotePostMsg) : Effects :=
  match alookup a.postsByID msg.PostID with
  | Option.none =>
      ⟨a, some (Reply.appError (NewAppError ErrorCode.ErrNotFound "Post not found")), [], []⟩
  | some post =>
      let votes1 := votesEnsure a.postVotes msg.PostID
      let ledger := (alookup votes1 msg.PostID).getD []
      match alookup ledger msg.UserID with
      | some previousVote =>
          if previousVote.IsUpvote = msg.IsUpvote then
            ⟨{ a with postVotes := votes1 },
             some (Reply.appError (NewAppError ErrorCode.ErrDuplicate "Already voted")), [], []⟩
          else if msg.IsUpvote then
            voteFinish storeOk now a votes1 ledger post msg 1 (-1)
          else
            voteFinish storeOk now a votes1 ledger post msg (-1) 1
      | Option.none =>
          if msg.IsUpvote then
            voteFinish storeOk now a votes1 ledger post msg 1 0
          else
            voteFinish storeOk now a votes1 ledger post msg 0 1

/-- The vote-ledger read `a.postVotes[msg.PostID][msg.UserID]` (a read through
a missing inner map yields nothing, as in Go). -/
def lookupVote (a : PostActorState) (msg : VotePostMsg) : Option voteStatus :=
  alookup ((alookup a.postVotes msg.PostID).getD []) msg.UserID

/-- The newPost construction in handleCreatePost: fresh identity, zero counters. -/
def mkNewPost (msg : CreatePostMsg) (user : User) (subreddit : Subreddit)
    (freshID now : Nat) : Post :=
  { ID := freshID, Title := msg.Title, Content := msg.Content,
    AuthorID := msg.AuthorID, AuthorUsername := user.Username,
    SubredditID := msg.SubredditID, SubredditName := subreddit.Name,
    CreatedAt := now, Upvotes := 0, Downvotes := 0, Karma := 0 }

/-- PostActor.handleCreatePost.  `userResult` / `subredditResult` are the
outcomes of the mongodb.GetUser / GetSubredditByID lookups (`Option.none`
models a lookup that returned an error, including entity-absent); `insertOk`
is the outcome of the Posts.InsertOne call; `freshID` is the uuid.New()
value and `now` the current time. -/
def handleCreatePost (userResult : Option User) (subredditResult : Option Subreddit)
    (insertOk : Bool) (freshID now : Nat)
    (a : PostActorState) (msg : CreatePostMsg) : Effects :=
  match userResult with
  | Option.none =>
      ⟨a, some (Reply.appError (NewAppError ErrorCode.ErrDatabase "Failed to fetch author details")), [], []⟩
  | some user =>
      match subredditResult with
      | Option.none =>
          ⟨a, some (Reply.appError (NewAppError ErrorCode.ErrDatabase "Failed to fetch subreddit details")), [], []⟩
      | some subreddit =>
          let newPost := mkNewPost msg user subreddit freshID now
          if insertOk then
            ⟨{ postsByID := aset a.postsByID newPost.ID newPost,
               subredditPosts := aset a.subredditPosts msg.SubredditID
                 (((alookup a.subredditPosts msg.SubredditID).getD []) ++ [newPost.ID]),
               postVotes := aset a.postVotes newPost.ID [] },
             some (Reply.post newPost), [StoreWrite.insertPost newPost], []⟩
          else
            ⟨a, some (Reply.appError (NewAppError ErrorCode.ErrDatabase "Failed to save post")),
             [StoreWrite.insertPost newPost], []⟩

/-- PostActor.handleGetPost.  `storeOk` distinguishes a reachable store from
a store-level failure; `store` is the Posts collection keyed by _id. -/
def handleGetPost (storeOk : Bool) (store : List (Nat × Post))
    (a : PostActorState) (msg : GetPostMsg) : Effects :=
  match alookup a.postsByID msg.PostID with
  | some post => ⟨a, some (Reply.post post), [], []⟩
  | Option.none =>
      if storeOk then
        match alookup store msg.PostID with
        | Option.none =>
            ⟨a, some (Reply.appError (NewAppError ErrorCode.ErrNotFound "Post not found")), [], []⟩
        | some post =>
            ⟨{ postsByID := aset a.postsByID post.ID post,
               subredditPosts := aset a.subredditPosts post.SubredditID
                 (((alookup a.subredditPosts post.SubredditID).getD []) ++ [post.ID]),
               postVotes := aset a.postVotes post.ID [] },
             some (Reply.post post), [], []⟩
      else
        ⟨a, some (Reply.appError (NewAppError ErrorCode.ErrDatabase "Failed to fetch post")), [], []⟩

/-- PostActor.handleGetSubredditPosts: queries the store directly;
`subredditQuery` is the outcome of mongodb.GetSubredditPosts. -/
def handleGetSubredditPosts (subredditQuery : Option (List Post))
    (a : PostActorState) : Effects :=
  match subredditQuery with
  | Option.none =>
      ⟨a, some (Reply.appError (NewAppError ErrorCode.ErrDatabase "Failed to fetch subreddit posts")), [], []⟩
  | some posts =>
      if posts.isEmpty then
        ⟨a, some (Reply.posts []), [], []⟩
      else
        let a2 := posts.foldl (fun st p =>
          { st with
            postsByID := aset st.postsByID p.ID p,
            postVotes :=
              match alookup st.postVotes p.ID with
              | Option.none => aset st.postVotes p.ID []
              | some _ => st.postVotes }) a
        ⟨a2, some (Reply.posts posts), [], []⟩

/-- PostActor.handleLoadPosts (bulk load at startup).  `loadQuery` is the
outcome of the Posts.Find query; its list holds the successfully decoded
documents (decode failures are skipped in the source and thus absent here).
On a store-level query failure the load aborts with no reply and no change. -/
def handleLoadPosts (loadQuery : Option (List Post)) (a : PostActorState) : Effects :=
  match loadQuery with
  | Option.none => ⟨a, Option.none, [], []⟩
  | some posts =>
      let a2 := posts.foldl (fun st p =>
        { postsByID := aset st.postsByID p.ID p,
          subredditPosts := aset st.subredditPosts p.SubredditID
            (((alookup st.subredditPosts p.SubredditID).getD []) ++ [p.ID]),
          postVotes := aset st.postVotes p.ID [] }) a
      ⟨a2, Option.none, [], []⟩

/-- PostActor.handleGetUserFeed: pure store delegation. -/
def handleGetUserFeed (feedQuery : Option (List Post)) (a : PostActorState) : Effects :=
  match feedQuery with
  | Option.none =>
      ⟨a, some (Reply.appError (NewAppError ErrorCode.ErrDatabase "Failed to get feed posts")), [], []⟩
  | some posts => ⟨a, some (Reply.posts posts), [], []⟩

/-- PostActor.handleGetRecentPosts: store query sorted by creation time;
`recentFindOk` is the Find call outcome, `recentDecoded` the decoded
documents, `recentCursorErr` a cursor error detected after the loop. -/
def handleGetRecentPosts (recentFindOk : Bool) (recentDecoded : List Post)
    (recentCursorErr : Bool) (a : PostActorState) : Effects :=
  if recentFindOk then
    if recentCursorErr then
      ⟨a, some (Reply.appError (NewAppError ErrorCode.ErrDatabase "Error reading posts")), [], []⟩
    else
      ⟨a, some (Reply.posts recentDecoded), [], []⟩
  else
    ⟨a, some (Reply.appError (NewAppError ErrorCode.ErrDatabase "Failed to fetch recent posts")), [], []⟩

/-- The messages that can arrive in the PostActor's mailbox (every message
type named in the source, plus the lifecycle messages). -/
inductive PostMsg where
  | started
  | initializePostActorMsg
  | loadPostsFromDBMsg
  | createPost (m : CreatePostMsg)
  | getPost (m : GetPostMsg)
  | getSubredditPosts (m : GetSubredditPostsMsg)
  | votePost (m : VotePostMsg)
  | getUserFeed (m : GetUserFeedMsg)
  | getRecentPosts (m : GetRecentPostsMsg)
  | getCounts
  | deletePost (m : DeletePostMsg)
deriving DecidableEq

/-- The oracle inputs feeding one message-handling step: outcomes of every
external call the handlers can make. -/
structure Oracles where
  userResult : Option User
  subredditResult : Option Subreddit
  insertOk : Bool
  freshID : Nat
  now : Nat
  storeOk : Bool
  store : List (Nat × Post)
  subredditQuery : Option (List Post)
  feedQuery : Option (List Post)
  recentFindOk : Bool
  recentDecoded : List Post
  recentCursorErr : Bool
  loadQuery : Option (List Post)

/-- PostActor.Receive: the message dispatch switch.  `started` and
`initializePostActorMsg` only forward a self-message driving the bootstrap
(self-messages are not tracked in Effects); `GetCountsMsg` and
`DeletePostMsg` have no case in the source switch, so they fall to the
default branch, which only logs and responds with nothing. -/
def Receive (o : Oracles) (a : PostActorState) : PostMsg → Effects
  | PostMsg.started => ⟨a, Option.none, [], []⟩
  | PostMsg.initializePostActorMsg => ⟨a, Option.none, [], []⟩
  | PostMsg.loadPostsFromDBMsg => handleLoadPosts o.loadQuery a
  | PostMsg.createPost m =>
      handleCreatePost o.userResult o.subredditResult o.insertOk o.freshID o.now a m
  | PostMsg.getPost m => handleGetPost o.storeOk o.store a m
  | PostMsg.getSubredditPosts _ => handleGetSubredditPosts o.subredditQuery a
  | PostMsg.votePost m => handleVote o.storeOk o.now a m
  | PostMsg.getUserFeed _ => handleGetUserFeed o.feedQuery a
  | PostMsg.getRecentPosts _ =>
      handleGetRecentPosts o.recentFindOk o.recentDecoded o.recentCursorErr a
  | PostMsg.getCounts => ⟨a, Option.none, [], []⟩
  | PostMsg.deletePost _ => ⟨a, Option.none, [], []⟩

/-! ## Association-list lemmas -/

theorem alookup_aset_self {α : Type} (m : List (Nat × α)) (k : Nat) (v : α) :
    alookup (aset m k v) k = some v := by
  induction m with
  | nil => simp [aset, alookup]
  | cons kv rest ih =>
      by_cases h : kv.1 = k
      · simp [aset, alookup, h]
      · simp [aset, alookup, h, ih]

theorem mem_aset {α : Type} {m : List (Nat × α)} {k : Nat} {v : α} {x : Nat × α}
    (hx : x ∈ aset m k v) : x ∈ m ∨ x = (k, v) := by
  induction m with
  | nil =>
      simp [aset] at hx
      simp [hx]
  | cons kv rest ih =>
      by_cases h : kv.1 = k
      · simp [aset, h] at hx
        rcases hx with h1 | h1
        · right; exact h1
        · left; exact List.mem_cons_of_mem _ h1
      · simp [aset, h] at hx
        rcases hx with h1 | h1
        · left; simp [h1]
        · rcases ih h1 with h2 | h2
          · left; exact List.mem_cons_of_mem _ h2
          · right; exact h2

theorem votesEnsure_lookup (votes : List (Nat × List (Nat × voteStatus))) (pid : Nat) :
    alookup (votesEnsure votes pid) pid = some ((alookup votes pid).getD []) := by
  unfold votesEnsure
  cases h : alookup votes pid with
  | none => simp [h, alookup_aset_self]
  | some l => simp [h]

/-! ## The karma invariant -/

/-- The spec invariant: every cached post has karma equal to
upvotes minus downvotes. -/
def KarmaInv (a : PostActorState) : Prop :=
  ∀ kp ∈ a.postsByID, (Prod.snd kp).Karma = (Prod.snd kp).Upvotes - (Prod.snd kp).Downvotes

instance (a : PostActorState) : Decidable (KarmaInv a) :=
  List.decidableBAll _ a.postsByID

/-- A committed mutation of the content actor: a vote or a post creation,
with the oracle inputs that drive it. -/
inductive MutOp where
  | vote (storeOk : Bool) (now : Nat) (m : VotePostMsg)
  | create (userResult : Option User) (subredditResult : Option Subreddit)
           (insertOk : Bool) (freshID now : Nat) (m : CreatePostMsg)

/-- The state reached after one mutation. -/
def applyMut (a : PostActorState) : MutOp → PostActorState
  | MutOp.vote storeOk now m => (handleVote storeOk now a m).state
  | MutOp.create u s insertOk freshID now m =>
      (handleCreatePost u s insertOk freshID now a m).state

/-- The state reached after a sequence of mutations. -/
def runMuts (a : PostActorState) (ops : List MutOp) : PostActorState :=
  ops.foldl applyMut a

theorem karmaInv_voteFinish (storeOk : Bool) (now : Nat) (a : PostActorState)
    (votes1 : List (Nat × List (Nat × voteStatus))) (ledger : List (Nat × voteStatus))
    (post : Post) (msg : VotePostMsg) (du dd : Int) (h : KarmaInv a) :
    KarmaInv (voteFinish storeOk now a votes1 ledger post msg du dd).state := by
  intro kp hkp
  unfold voteFinish at hkp
  simp only at hkp
  rcases mem_aset hkp with hin | heq
  · exact h kp hin
  · subst heq; rfl

theorem karmaInv_handleVote (storeOk : Bool) (now : Nat) (a : PostActorState)
    (msg : VotePostMsg) (h : KarmaInv a) :
    KarmaInv (handleVote storeOk now a msg).state := by
  unfold handleVote
  cases hp : alookup a.postsByID msg.PostID with
  | none => simpa using h
  | some post =>
      simp only
      cases hl : alookup ((alookup (votesEnsure a.postVotes msg.PostID) msg.PostID).getD [])
          msg.UserID with
      | some v =>
          by_cases hd : v.IsUpvote = msg.IsUpvote
          · simpa [hd] using h
          · cases hmu : msg.IsUpvote with
            | true =>
                have hv : v.IsUpvote = false := by
                  cases hvb : v.IsUpvote
                  · rfl
                  · exact absurd (hvb.trans hmu.symm) hd
                simpa [hv, hmu] using karmaInv_voteFinish storeOk now a _ _ post msg 1 (-1) h
            | false =>
                have hv : v.IsUpvote = true := by
                  cases hvb : v.IsUpvote
                  · exact absurd (hvb.trans hmu.symm) hd
                  · rfl
                simpa [hv, hmu] using karmaInv_voteFinish storeOk now a _ _ post msg (-1) 1 h
      | none =>
          by_cases hu : msg.IsUpvote
          · simpa [hu] using karmaInv_voteFinish storeOk now a _ _ post msg 1 0 h
          · simpa [hu] using karmaInv_voteFinish storeOk now a _ _ post msg 0 1 h

theorem karmaInv_handleCreatePost (userResult : Option User)
    (subredditResult : Option Subreddit) (insertOk : Bool) (freshID now : Nat)
    (a : PostActorState) (msg : CreatePostMsg) (h : KarmaInv a) :
    KarmaInv (handleCreatePost userResult subredditResult insertOk freshID now a msg).state := by
  unfold handleCreatePost
  cases userResult with
  | none => simpa using h
  | some user =>
      cases subredditResult with
      | none => simpa using h
      | some subreddit =>
          by_cases hins : insertOk
          · simp only [hins, if_true]
            intro kp hkp
            simp only at hkp
            rcases mem_aset hkp with hin | heq
            · exact h kp hin
            · subst heq; rfl
          · simpa [hins] using h

theorem karmaInv_applyMut (a : PostActorState) (op : MutOp) (h : KarmaInv a) :
    KarmaInv (applyMut a op) := by
  cases op with
  | vote storeOk now m => exact karmaInv_handleVote storeOk now a m h
  | create u s insertOk freshID now m =>
      exact karmaInv_handleCreatePost u s insertOk freshID now a m h

/-- C4: for every post and after every committed mutation (post creation and
every vote transition, whatever the oracle outcomes), each cached post's
karma field equals its upvote count minus its downvote count. -/
theorem C4_karma_invariant (ops : List MutOp) (a : PostActorState) (h : KarmaInv a) :
    KarmaInv (runMuts a ops) := by
  induction ops generalizing a with
  | nil => simpa [runMuts] using h
  | cons op rest ih =>
      simpa [runMuts] using ih (applyMut a op) (karmaInv_applyMut a op h)

/-! ## Characterizations of handleVote -/

theorem handleVote_notFound (storeOk : Bool) (now : Nat) (a : PostActorState)
    (msg : VotePostMsg) (hp : alookup a.postsByID msg.PostID = Option.none) :
    handleVote storeOk now a msg =
      ⟨a, some (Reply.appError (NewAppError ErrorCode.ErrNotFound "Post not found")), [], []⟩ := by
  unfold handleVote
  rw [hp]

/-- The ledger read performed inside handleVote (after the ensure step)
coincides with `lookupVote` on the incoming state. -/
theorem ledger_read_eq (a : PostActorState) (msg : VotePostMsg) :
    alookup ((alookup (votesEnsure a.postVotes msg.PostID) msg.PostID).getD [])
      msg.UserID = lookupVote a msg := by
  rw [votesEnsure_lookup]
  rfl

theorem handleVote_first (storeOk : Bool) (now : Nat) (a : PostActorState)
    (msg : VotePostMsg) (post : Post)
    (hp : alookup a.postsByID msg.PostID = some post)
    (hv : lookupVote a msg = Option.none) :
    handleVote storeOk now a msg =
      voteFinish storeOk now a (votesEnsure a.postVotes msg.PostID)
        ((alookup a.postVotes msg.PostID).getD []) post msg
        (if msg.IsUpvote then 1 else 0) (if msg.IsUpvote then 0 else 1) := by
  unfold handleVote
  rw [hp]
  have hv2 : alookup ((alookup a.postVotes msg.PostID).getD []) msg.UserID = Option.none := hv
  simp only [votesEnsure_lookup, Option.getD_some, hv2]
  cases hmu : msg.IsUpvote <;> simp [hmu]

theorem handleVote_flip (storeOk : Bool) (now : Nat) (a : PostActorState)
    (msg : VotePostMsg) (post : Post) (v : voteStatus)
    (hp : alookup a.postsByID msg.PostID = some post)
    (hv : lookupVote a msg = some v)
    (hd : v.IsUpvote ≠ msg.IsUpvote) :
    handleVote storeOk now a msg =
      voteFinish storeOk now a (votesEnsure a.postVotes msg.PostID)
        ((alookup a.postVotes msg.PostID).getD []) post msg
        (if msg.IsUpvote then 1 else -1) (if msg.IsUpvote then -1 else 1) := by
  unfold handleVote
  rw [hp]
  have hv2 : alookup ((alookup a.postVotes msg.PostID).getD []) msg.UserID = some v := hv
  simp only [votesEnsure_lookup, Option.getD_some, hv2]
  cases hmu : msg.IsUpvote with
  | true =>
      have hvu : v.IsUpvote = false := by
        cases hvb : v.IsUpvote
        · rfl
        · exact absurd (hvb.trans hmu.symm) hd
      simp [hvu, hmu]
  | false =>
      have hvu : v.IsUpvote = true := by
        cases hvb : v.IsUpvote
        · exact absurd (hvb.trans hmu.symm) hd
        · rfl
      simp [hvu, hmu]

theorem voteFinish_state (storeOk : Bool) (now : Nat) (a : PostActorState)
    (votes1 : List (Nat × List (Nat × voteStatus))) (ledger : List (Nat × voteStatus))
    (post : Post) (msg : VotePostMsg) (du dd : Int) :
    (voteFinish storeOk now a votes1 ledger post msg du dd).state =
      { postsByID := aset a.postsByID msg.PostID
          { post with Upvotes := post.Upvotes + du, Downvotes := post.Downvotes + dd,
                      Karma := post.Upvotes + du - (post.Downvotes + dd) },
        subredditPosts := a.subredditPosts,
        postVotes := aset votes1 msg.PostID
          (aset ledger msg.UserID ⟨msg.IsUpvote, now⟩) } := rfl

theorem voteFinish_reply (storeOk : Bool) (now : Nat) (a : PostActorState)
    (votes1 : List (Nat × List (Nat × voteStatus))) (ledger : List (Nat × voteStatus))
    (post : Post) (msg : VotePostMsg) (du dd : Int) :
    (voteFinish storeOk now a votes1 ledger post msg du dd).reply =
      if storeOk then
        some (Reply.post
          { post with
              Upvotes := post.Upvotes + du,
              Downvotes := post.Downvotes + dd,
              Karma := post.Upvotes + du - (post.Downvotes + dd) })
      else
        some (Reply.appError (NewAppError ErrorCode.ErrDatabase "Failed to persist vote")) := rfl

theorem voteFinish_storeWrites (storeOk : Bool) (now : Nat) (a : PostActorState)
    (votes1 : List (Nat × List (Nat × voteStatus))) (ledger : List (Nat × voteStatus))
    (post : Post) (msg : VotePostMsg) (du dd : Int) :
    (voteFinish storeOk now a votes1 ledger post msg du dd).storeWrites =
      [StoreWrite.updatePostVotes post.ID du dd] := rfl

theorem voteFinish_sent (storeOk : Bool) (now : Nat) (a : PostActorState)
    (votes1 : List (Nat × List (Nat × voteStatus))) (ledger : List (Nat × voteStatus))
    (post : Post) (msg : VotePostMsg) (du dd : Int) :
    (voteFinish storeOk now a votes1 ledger post msg du dd).sent =
      if storeOk then [⟨post.AuthorID, if msg.IsUpvote then 1 else -1⟩] else [] := rfl

/-- C5: a repeated vote in the same direction is rejected with a duplicate
error: the reply is the ErrDuplicate application error and the state, the
store-write list and the outbound message list are exactly unchanged. -/
theorem C5_duplicate_vote (storeOk : Bool) (now : Nat) (a : PostActorState)
    (msg : VotePostMsg) (post : Post) (v : voteStatus)
    (hp : alookup a.postsByID msg.PostID = some post)
    (hv : lookupVote a msg = some v)
    (hd : v.IsUpvote = msg.IsUpvote) :
    handleVote storeOk now a msg =
      ⟨a, some (Reply.appError (NewAppError ErrorCode.ErrDuplicate "Already voted")), [], []⟩ := by
  obtain ⟨l, hl⟩ : ∃ l, alookup a.postVotes msg.PostID = some l := by
    cases hq : alookup a.postVotes msg.PostID with
    | none =>
        rw [lookupVote, hq] at hv
        simp [alookup] at hv
    | some l => exact ⟨l, rfl⟩
  have hve : votesEnsure a.postVotes msg.PostID = a.postVotes := by
    unfold votesEnsure
    rw [hl]
  unfold handleVote
  rw [hp]
  have hv2 : alookup ((alookup a.postVotes msg.PostID).getD []) msg.UserID = some v := hv
  simp only [votesEnsure_lookup, Option.getD_some, hv2, hve, hd]
  simp

/-- After any voteFinish, the vote ledger holds the new vote for this
(post, voter) pair, stamped with the current time. -/
theorem voteFinish_lookupVote (storeOk : Bool) (now : Nat) (a : PostActorState)
    (votes1 : List (Nat × List (Nat × voteStatus))) (ledger : List (Nat × voteStatus))
    (post : Post) (msg : VotePostMsg) (du dd : Int) :
    lookupVote (voteFinish storeOk now a votes1 ledger post msg du dd).state msg =
      some ⟨msg.IsUpvote, now⟩ := by
  unfold lookupVote
  rw [voteFinish_state]
  simp [alookup_aset_self]

/-! ## Concrete fixtures for the closed-instance theorems -/

/-- A sample post: id 1, author 2, subreddit 3, zero counters. -/
def samplePost : Post :=
  ⟨1, "t", "c", 2, "alice", 3, "gators", 0, 0, 0, 0⟩

/-- A cache holding samplePost with an empty vote ledger. -/
def sampleState : PostActorState :=
  ⟨[(1, samplePost)], [(3, [1])], [(1, [])]⟩

/-- samplePost after one upvote. -/
def sampleUpvotedPost : Post :=
  ⟨1, "t", "c", 2, "alice", 3, "gators", 0, 1, 0, 1⟩

/-- A cache where voter 7 already upvoted post 1. -/
def sampleUpvotedState : PostActorState :=
  ⟨[(1, sampleUpvotedPost)], [(3, [1])], [(1, [(7, ⟨true, 0⟩)])]⟩

/-- samplePost after one downvote. -/
def sampleDownvotedPost : Post :=
  ⟨1, "t", "c", 2, "alice", 3, "gators", 0, 0, 1, -1⟩

/-- A cache where voter 7 already downvoted post 1. -/
def sampleDownvotedState : PostActorState :=
  ⟨[(1, sampleDownvotedPost)], [(3, [1])], [(1, [(7, ⟨false, 0⟩)])]⟩

/-- C8: voting on a post that does not exist (hence is absent from the
cache, which is all handleVote consults — the model takes no store input,
so no store read or write can occur) returns the NotFound error and leaves
the state exactly unchanged, with no store write and no outbound message. -/
theorem C8_vote_missing_post (storeOk : Bool) (now : Nat) (a : PostActorState)
    (msg : VotePostMsg) (hp : alookup a.postsByID msg.PostID = Option.none) :
    handleVote storeOk now a msg =
      ⟨a, some (Reply.appError (NewAppError ErrorCode.ErrNotFound "Post not found")), [], []⟩ :=
  handleVote_notFound storeOk now a msg hp

theorem C8_witness :
    handleVote true 5 sampleState ⟨99, 7, true⟩ =
      ⟨sampleState, some (Reply.appError (NewAppError ErrorCode.ErrNotFound "Post not found")),
       [], []⟩ :=
  C8_vote_missing_post true 5 sampleState ⟨99, 7, true⟩ (by decide)

/-- C3: the claim says every GetCounts request is answered with the number
of cache-resident posts; in the source, PostActor.Receive has no case for
GetCountsMsg, so the message falls to the default branch, which only logs —
handling it produces no reply at all (and no state change, store write or
outbound message), for every oracle and every cache state, so the caller
(the health endpoint, which casts the reply to an integer) times out. -/
theorem C3_getCounts_unhandled (o : Oracles) (a : PostActorState) :
    Receive o a PostMsg.getCounts = ⟨a, Option.none, [], []⟩ := rfl

/-- C10: for a post present in the durable store but not resident in the
cache, vote returns NotFound and changes nothing (handleVote never consults
the store), whereas get on the same state falls back to the store, replies
with the post, and backfills the cache with the post entry and an empty
vote ledger. -/
theorem C10_vote_requires_cache (storeOk : Bool) (now : Nat) (a : PostActorState)
    (store : List (Nat × Post)) (pid uid : Nat) (isUp : Bool) (post : Post)
    (hmiss : alookup a.postsByID pid = Option.none)
    (hstore : alookup store pid = some post) :
    handleVote storeOk now a ⟨pid, uid, isUp⟩ =
      ⟨a, some (Reply.appError (NewAppError ErrorCode.ErrNotFound "Post not found")), [], []⟩ ∧
    (handleGetPost true store a ⟨pid⟩).reply = some (Reply.post post) ∧
    alookup (handleGetPost true store a ⟨pid⟩).state.postsByID post.ID = some post ∧
    alookup (handleGetPost true store a ⟨pid⟩).state.postVotes post.ID = some [] := by
  refine ⟨handleVote_notFound storeOk now a ⟨pid, uid, isUp⟩ hmiss, ?_, ?_, ?_⟩ <;>
    simp [handleGetPost, hmiss, hstore, alookup_aset_self]

theorem C10_witness :
    handleVote true 5 (⟨[], [], []⟩ : PostActorState) ⟨1, 7, true⟩ =
      ⟨⟨[], [], []⟩,
       some (Reply.appError (NewAppError ErrorCode.ErrNotFound "Post not found")), [], []⟩ ∧
    (handleGetPost true [(1, samplePost)] ⟨[], [], []⟩ ⟨1⟩).reply =
      some (Reply.post samplePost) ∧
    alookup (handleGetPost true [(1, samplePost)] ⟨[], [], []⟩ ⟨1⟩).state.postsByID 1 =
      some samplePost ∧
    alookup (handleGetPost true [(1, samplePost)] ⟨[], [], []⟩ ⟨1⟩).state.postVotes 1 =
      some [] :=
  C10_vote_requires_cache true 5 ⟨[], [], []⟩ [(1, samplePost)] 1 7 true samplePost
    (by decide) (by decide)

/-- C6: an accepted vote flip moves the incremented counter up by exactly
one and the decremented counter down by exactly one in the same operation,
so karma shifts by exactly two in the direction of the new vote (given the
karma invariant held for the post beforehand), whatever the store outcome. -/
theorem C6_flip_shifts_karma_by_two (storeOk : Bool) (now : Nat)
    (a : PostActorState) (msg : VotePostMsg) (post : Post) (v : voteStatus)
    (hp : alookup a.postsByID msg.PostID = some post)
    (hv : lookupVote a msg = some v)
    (hd : v.IsUpvote ≠ msg.IsUpvote)
    (hk : post.Karma = post.Upvotes - post.Downvotes) :
    alookup (handleVote storeOk now a msg).state.postsByID msg.PostID =
      some { post with
              Upvotes := post.Upvotes + (if msg.IsUpvote then 1 else -1),
              Downvotes := post.Downvotes + (if msg.IsUpvote then -1 else 1),
              Karma := post.Karma + (if msg.IsUpvote then 2 else -2) } := by
  rw [handleVote_flip storeOk now a msg post v hp hv hd, voteFinish_state,
      alookup_aset_self]
  cases hmu : msg.IsUpvote <;> simp [hmu, Post.mk.injEq] <;> omega

theorem C6_witness :
    alookup (handleVote true 5 sampleDownvotedState ⟨1, 7, true⟩).state.postsByID 1 =
      some sampleUpvotedPost :=
  C6_flip_shifts_karma_by_two true 5 sampleDownvotedState ⟨1, 7, true⟩
    sampleDownvotedPost ⟨false, 0⟩ (by decide) (by decide) (by decide) (by decide)

theorem C5_witness :
    handleVote true 5 sampleUpvotedState ⟨1, 7, true⟩ =
      ⟨sampleUpvotedState,
       some (Reply.appError (NewAppError ErrorCode.ErrDuplicate "Already voted")), [], []⟩ :=
  C5_duplicate_vote true 5 sampleUpvotedState ⟨1, 7, true⟩ sampleUpvotedPost ⟨true, 0⟩
    (by decide) (by decide) (by decide)

/-- A sample mutation sequence: one creation followed by two votes (one of
them hitting a store failure). -/
def sampleOps : List MutOp :=
  [MutOp.create (some ⟨"alice"⟩) (some ⟨"gators"⟩) true 1 0 ⟨"t", "c", 2, 3⟩,
   MutOp.vote true 1 ⟨1, 7, true⟩,
   MutOp.vote false 2 ⟨1, 8, false⟩]

theorem C4_witness : KarmaInv (runMuts ⟨[], [], []⟩ sampleOps) :=
  C4_karma_invariant sampleOps ⟨[], [], []⟩ (by decide)

/-- C1 fails on the code: with the durable store failing, an accepted first
upvote still mutates the cached post and the vote ledger before the store
call; the reply is the storage error, yet memory is not as it was before. -/
theorem C1_counterexample :
    (handleVote false 5 sampleState ⟨1, 7, true⟩).reply =
      some (Reply.appError (NewAppError ErrorCode.ErrDatabase "Failed to persist vote")) ∧
    (handleVote false 5 sampleState ⟨1, 7, true⟩).state ≠ sampleState ∧
    alookup (handleVote false 5 sampleState ⟨1, 7, true⟩).state.postsByID 1 =
      some sampleUpvotedPost := by
  decide

/-- C1 amended: on an accepted vote transition the in-memory vote ledger
and post counters are mutated first and the incremental store write is
issued; when the store update fails, the reply is the storage error and no
karma message goes out, but the in-memory state keeps the new vote — it is
identical to the state reached when the store write succeeds, the ledger
records the new vote, and the state genuinely differs from the state before
the request (nothing is rolled back). -/
theorem C1_store_failure_keeps_mutation (now : Nat) (a : PostActorState)
    (msg : VotePostMsg) (post : Post)
    (hp : alookup a.postsByID msg.PostID = some post)
    (hacc : ∀ v, lookupVote a msg = some v → v.IsUpvote ≠ msg.IsUpvote) :
    (handleVote false now a msg).reply =
      some (Reply.appError (NewAppError ErrorCode.ErrDatabase "Failed to persist vote")) ∧
    (handleVote false now a msg).state = (handleVote true now a msg).state ∧
    (handleVote false now a msg).storeWrites = (handleVote true now a msg).storeWrites ∧
    (handleVote false now a msg).sent = [] ∧
    lookupVote (handleVote false now a msg).state msg = some ⟨msg.IsUpvote, now⟩ ∧
    (handleVote false now a msg).state ≠ a := by
  cases hv : lookupVote a msg with
  | none =>
      rw [handleVote_first false now a msg post hp hv,
          handleVote_first true now a msg post hp hv]
      refine ⟨rfl, rfl, rfl, rfl,
        voteFinish_lookupVote false now a _ _ post msg _ _, ?_⟩
      intro he
      have h5 := voteFinish_lookupVote false now a (votesEnsure a.postVotes msg.PostID)
        ((alookup a.postVotes msg.PostID).getD []) post msg
        (if msg.IsUpvote then 1 else 0) (if msg.IsUpvote then 0 else 1)
      rw [he, hv] at h5
      exact Option.noConfusion h5
  | some v =>
      have hd := hacc v hv
      rw [handleVote_flip false now a msg post v hp hv hd,
          handleVote_flip true now a msg post v hp hv hd]
      refine ⟨rfl, rfl, rfl, rfl,
        voteFinish_lookupVote false now a _ _ post msg _ _, ?_⟩
      intro he
      have h5 := voteFinish_lookupVote false now a (votesEnsure a.postVotes msg.PostID)
        ((alookup a.postVotes msg.PostID).getD []) post msg
        (if msg.IsUpvote then 1 else -1) (if msg.IsUpvote then -1 else 1)
      rw [he, hv] at h5
      have h6 : v = ⟨msg.IsUpvote, now⟩ := Option.some.inj h5
      exact hd (by rw [h6])

theorem C1_witness :
    (handleVote false 5 sampleState ⟨1, 7, true⟩).reply =
      some (Reply.appError (NewAppError ErrorCode.ErrDatabase "Failed to persist vote")) ∧
    (handleVote false 5 sampleState ⟨1, 7, true⟩).state =
      (handleVote true 5 sampleState ⟨1, 7, true⟩).state ∧
    (handleVote false 5 sampleState ⟨1, 7, true⟩).storeWrites =
      (handleVote true 5 sampleState ⟨1, 7, true⟩).storeWrites ∧
    (handleVote false 5 sampleState ⟨1, 7, true⟩).sent = [] ∧
    lookupVote (handleVote false 5 sampleState ⟨1, 7, true⟩).state ⟨1, 7, true⟩ =
      some ⟨true, 5⟩ ∧
    (handleVote false 5 sampleState ⟨1, 7, true⟩).state ≠ sampleState :=
  C1_store_failure_keeps_mutation 5 sampleState ⟨1, 7, true⟩ samplePost (by decide)
    (fun v hv => by simp [lookupVote, alookup, sampleState] at hv)

/-- C9 fails on the code: on an accepted transition whose store update
fails, the in-memory state commits (the state changed) yet no UpdateKarma
message is sent at all. -/
theorem C9_counterexample :
    (handleVote false 5 sampleState ⟨1, 7, false⟩).state ≠ sampleState ∧
    (handleVote false 5 sampleState ⟨1, 7, false⟩).sent = [] := by
  decide

/-- C9 amended: on every accepted vote transition whose durable-store
update succeeds, exactly one UpdateKarma message is sent, addressed to the
voted post's author, with delta +1 for an upvote and -1 for a downvote
(including flips); the reply is the committed post itself — it is computed
from the post state alone and does not depend on the karma message's
outcome (the send is fire-and-forget). -/
theorem C9_store_success_sends_one_karma (now : Nat) (a : PostActorState)
    (msg : VotePostMsg) (post : Post)
    (hp : alookup a.postsByID msg.PostID = some post)
    (hacc : ∀ v, lookupVote a msg = some v → v.IsUpvote ≠ msg.IsUpvote) :
    (handleVote true now a msg).sent =
      [⟨post.AuthorID, if msg.IsUpvote then 1 else -1⟩] ∧
    (∃ p2, (handleVote true now a msg).reply = some (Reply.post p2) ∧
      alookup (handleVote true now a msg).state.postsByID msg.PostID = some p2) := by
  cases hv : lookupVote a msg with
  | none =>
      rw [handleVote_first true now a msg post hp hv]
      refine ⟨rfl, ⟨{ post with
          Upvotes := post.Upvotes + (if msg.IsUpvote then 1 else 0),
          Downvotes := post.Downvotes + (if msg.IsUpvote then 0 else 1),
          Karma := post.Upvotes + (if msg.IsUpvote then 1 else 0) -
            (post.Downvotes + (if msg.IsUpvote then 0 else 1)) }, rfl, ?_⟩⟩
      rw [voteFinish_state]
      exact alookup_aset_self _ _ _
  | some v =>
      have hd := hacc v hv
      rw [handleVote_flip true now a msg post v hp hv hd]
      refine ⟨rfl, ⟨{ post with
          Upvotes := post.Upvotes + (if msg.IsUpvote then 1 else -1),
          Downvotes := post.Downvotes + (if msg.IsUpvote then -1 else 1),
          Karma := post.Upvotes + (if msg.IsUpvote then 1 else -1) -
            (post.Downvotes + (if msg.IsUpvote then -1 else 1)) }, rfl, ?_⟩⟩
      rw [voteFinish_state]
      exact alookup_aset_self _ _ _

theorem C9_witness :
    (handleVote true 5 sampleState ⟨1, 7, true⟩).sent = [⟨2, 1⟩] ∧
    (∃ p2, (handleVote true 5 sampleState ⟨1, 7, true⟩).reply = some (Reply.post p2) ∧
      alookup (handleVote true 5 sampleState ⟨1, 7, true⟩).state.postsByID 1 = some p2) :=
  C9_store_success_sends_one_karma 5 sampleState ⟨1, 7, true⟩ samplePost (by decide)
    (fun v hv => by simp [lookupVote, alookup, sampleState] at hv)

/-- C2 fails on the code: a failed author lookup is answered with an
ErrDatabase ("storage") error — not ErrNotFound as the claim states. -/
theorem C2_counterexample :
    (handleCreatePost Option.none (some ⟨"gators"⟩) true 9 0 sampleState
        ⟨"t", "c", 2, 3⟩).reply =
      some (Reply.appError (NewAppError ErrorCode.ErrDatabase "Failed to fetch author details")) ∧
    ErrorCode.ErrDatabase ≠ ErrorCode.ErrNotFound := by
  decide

/-- C2 amended: when the author lookup or the subreddit lookup fails, the
create operation fails with a Database ("storage") error — this is the
error the source wraps every lookup failure in — and performs no mutation:
no post is persisted (no store write is issued), no cache entry is created
(the state is exactly unchanged) and no message is sent. -/
theorem C2_create_missing_dependency (userResult : Option User)
    (subredditResult : Option Subreddit) (insertOk : Bool) (freshID now : Nat)
    (a : PostActorState) (msg : CreatePostMsg)
    (h : userResult = Option.none ∨ subredditResult = Option.none) :
    ∃ m, handleCreatePost userResult subredditResult insertOk freshID now a msg =
      ⟨a, some (Reply.appError (NewAppError ErrorCode.ErrDatabase m)), [], []⟩ := by
  rcases h with h | h
  · subst h
    exact ⟨"Failed to fetch author details", rfl⟩
  · subst h
    cases userResult with
    | none => exact ⟨"Failed to fetch author details", rfl⟩
    | some u => exact ⟨"Failed to fetch subreddit details", rfl⟩

theorem C2_witness :
    ∃ m, handleCreatePost Option.none (some ⟨"gators"⟩) true 9 0 sampleState
        ⟨"t", "c", 2, 3⟩ =
      ⟨sampleState, some (Reply.appError (NewAppError ErrorCode.ErrDatabase m)), [], []⟩ :=
  C2_create_missing_dependency Option.none (some ⟨"gators"⟩) true 9 0 sampleState
    ⟨"t", "c", 2, 3⟩ (Or.inl rfl)

/-- C7: with both lookups succeeding, create builds the new post with a
fresh identity and zero upvotes, downvotes and karma, and issues its
insert as the only store write (the persistence attempt precedes any cache
decision: the write is recorded whatever its outcome); on insert failure
the reply is the storage error and the cache is completely unchanged; only
on insert success is the cache updated — post map entry, empty vote
ledger, and subreddit-index append — and the new post returned. -/
theorem C7_create_write_through (user : User) (subreddit : Subreddit)
    (insertOk : Bool) (freshID now : Nat) (a : PostActorState) (msg : CreatePostMsg) :
    (mkNewPost msg user subreddit freshID now).Upvotes = 0 ∧
    (mkNewPost msg user subreddit freshID now).Downvotes = 0 ∧
    (mkNewPost msg user subreddit freshID now).Karma = 0 ∧
    (handleCreatePost (some user) (some subreddit) insertOk freshID now a msg).storeWrites =
      [StoreWrite.insertPost (mkNewPost msg user subreddit freshID now)] ∧
    (insertOk = false →
      handleCreatePost (some user) (some subreddit) insertOk freshID now a msg =
        ⟨a, some (Reply.appError (NewAppError ErrorCode.ErrDatabase "Failed to save post")),
         [StoreWrite.insertPost (mkNewPost msg user subreddit freshID now)], []⟩) ∧
    (insertOk = true →
      handleCreatePost (some user) (some subreddit) insertOk freshID now a msg =
        ⟨⟨aset a.postsByID freshID (mkNewPost msg user subreddit freshID now),
          aset a.subredditPosts msg.SubredditID
            (((alookup a.subredditPosts msg.SubredditID).getD []) ++ [freshID]),
          aset a.postVotes freshID []⟩,
         some (Reply.post (mkNewPost msg user subreddit freshID now)),
         [StoreWrite.insertPost (mkNewPost msg user subreddit freshID now)], []⟩) := by
  cases insertOk <;> simp [handleCreatePost, mkNewPost]

theorem C7_witness :
    handleCreatePost (some ⟨"alice"⟩) (some ⟨"gators"⟩) false 9 0 sampleState
        ⟨"t", "c", 2, 3⟩ =
      ⟨sampleState,
       some (Reply.appError (NewAppError ErrorCode.ErrDatabase "Failed to save post")),
       [StoreWrite.insertPost (mkNewPost ⟨"t", "c", 2, 3⟩ ⟨"alice"⟩ ⟨"gators"⟩ 9 0)], []⟩ ∧
    (handleCreatePost (some ⟨"alice"⟩) (some ⟨"gators"⟩) true 9 0 sampleState
        ⟨"t", "c", 2, 3⟩).reply =
      some (Reply.post (mkNewPost ⟨"t", "c", 2, 3⟩ ⟨"alice"⟩ ⟨"gators"⟩ 9 0)) :=
  ⟨(C7_create_write_through ⟨"alice"⟩ ⟨"gators"⟩ false 9 0 sampleState
      ⟨"t", "c", 2, 3⟩).2.2.2.2.1 rfl,
   by rw [(C7_create_write_through ⟨"alice"⟩ ⟨"gators"⟩ true 9 0 sampleState
      ⟨"t", "c", 2, 3⟩).2.2.2.2.2 rfl]⟩

end GatorSwamp
